import Mathlib

/-!
Verification of the provider resolution and fallback subsystem of the
vibe-tools command-line orchestrator, together with its streaming command
execution contract.

The definitions below are a shallow embedding of the TypeScript source:

* `src/utils/providerAvailability.ts` — the provider registry
  (`DEFAULT_MODELS`, `getAllProviders`, `getProviderInfo`,
  `isProviderAvailable`, `getAvailableProviders`, `getDefaultModel`),
  the preference table (`PROVIDER_PREFERENCE`) and the fallback selector
  (`getNextAvailableProvider`).
* `src/commands/nix/nixCommand.ts` — `NixCommand.execute`, a streaming
  command that delegates with `yield*` inside a try/catch that rethrows.
* `src/commands/ask.ts` — `AskCommand.execute`, a streaming command that
  throws `ProviderError` on its error paths and yields a single answer
  chunk on success.

Process environment is modelled as a record of the eight credential
presence flags the source reads (`!!process.env.X_API_KEY`).  Provider
identifiers and command types are strings, as at the JavaScript runtime;
record lookups that can miss return `Option`, and functions that can
throw return `Except` or a failing generator trace.
-/

/-- The credential presence flags read from `process.env`: each field is
`!!process.env.<NAME>` for the corresponding variable. -/
structure Env where
  PERPLEXITY_API_KEY : Bool
  GEMINI_API_KEY : Bool
  OPENAI_API_KEY : Bool
  ANTHROPIC_API_KEY : Bool
  OPENROUTER_API_KEY : Bool
  MODELBOX_API_KEY : Bool
  XAI_API_KEY : Bool
  APIZH_API_KEY : Bool
deriving DecidableEq

/-- Embeds `interface ProviderInfo { provider; available; defaultModel? }`
from providerAvailability.ts. -/
structure ProviderInfo where
  provider : String
  available : Bool
  defaultModel : Option String
deriving DecidableEq

/-- Embeds the record `DEFAULT_MODELS : Record<Provider, string>` from
providerAvailability.ts.  A JavaScript record lookup with a key outside the
record yields `undefined`, hence the `Option` result. -/
def DEFAULT_MODELS (provider : String) : Option String :=
  if provider = "perplexity" then some "sonar-pro"
  else if provider = "gemini" then some "gemini-2.5-pro"
  else if provider = "openai" then some "gpt-4.1"
  else if provider = "anthropic" then some "claude-sonnet-4-20250514"
  else if provider = "openrouter" then some "google/gemini-2.5-pro"
  else if provider = "modelbox" then some "google/gemini-2.5-pro"
  else if provider = "xai" then some "grok-3-latest"
  else if provider = "apizh" then some "gpt-4o-mini"
  else if provider = "apizh-coding" then some "o3"
  else if provider = "apizh-chinese" then some "qwen3-235b-a22b"
  else if provider = "apizh-analysis" then some "claude-sonnet-4-20250514"
  else if provider = "apizh-creative" then some "claude-opus-4-20250514"
  else if provider = "apizh-math" then some "o1"
  else if provider = "apizh-web" then some "gemini-2.5-pro-exp-03-25"
  else if provider = "apizh-reasoning" then some "o1-mini"
  else if provider = "apizh-cost" then some "gpt-4o-mini"
  else if provider = "apizh-nix" then some "gpt-4.1-2025-04-14"
  else none

/-- The closed set of provider identifiers: the keys of `DEFAULT_MODELS`,
i.e. the `Provider` union type of the source. -/
def knownProviderNames : List String :=
  ["perplexity", "gemini", "openai", "anthropic", "openrouter", "modelbox",
   "xai", "apizh", "apizh-coding", "apizh-chinese", "apizh-analysis",
   "apizh-creative", "apizh-math", "apizh-web", "apizh-reasoning",
   "apizh-cost", "apizh-nix"]

/-- Embeds `getDefaultModel(provider) { return DEFAULT_MODELS[provider]; }`.
At the JavaScript runtime an unknown key yields `undefined` (`none`); no
error is thrown by this function. -/
def getDefaultModel (provider : String) : Option String :=
  DEFAULT_MODELS provider

/-- Embeds the record `PROVIDER_PREFERENCE : Record<string, Provider[]>`
from providerAvailability.ts: the preference list of each command type,
`undefined` (`none`) for unregistered command types. -/
def PROVIDER_PREFERENCE (commandType : String) : Option (List String) :=
  if commandType = "web" then
    some ["apizh-web", "perplexity", "gemini", "modelbox", "openrouter", "apizh"]
  else if commandType = "repo" then
    some ["apizh-analysis", "gemini", "modelbox", "openrouter", "openai",
          "perplexity", "anthropic", "xai", "apizh"]
  else if commandType = "plan_file" then
    some ["apizh-cost", "gemini", "modelbox", "openrouter", "openai",
          "perplexity", "anthropic", "xai", "apizh"]
  else if commandType = "plan_thinking" then
    some ["apizh-reasoning", "openai", "modelbox", "openrouter", "gemini",
          "anthropic", "perplexity", "xai", "apizh"]
  else if commandType = "doc" then
    some ["apizh-analysis", "gemini", "modelbox", "openrouter", "openai",
          "perplexity", "anthropic", "xai", "apizh"]
  else if commandType = "ask" then
    some ["apizh-cost", "openai", "modelbox", "openrouter", "gemini",
          "anthropic", "perplexity", "apizh"]
  else if commandType = "browser" then
    some ["apizh-analysis", "anthropic", "openai", "modelbox", "openrouter",
          "gemini", "perplexity", "apizh"]
  else none

/-- Embeds `getAllProviders()`: the seventeen registry entries in source
order, availability read from the environment (`isApizhAvailable` is shared
by apizh and all of its specialized variants). -/
def getAllProviders (env : Env) : List ProviderInfo :=
  let isApizhAvailable := env.APIZH_API_KEY
  [⟨"perplexity", env.PERPLEXITY_API_KEY, DEFAULT_MODELS "perplexity"⟩,
   ⟨"gemini", env.GEMINI_API_KEY, DEFAULT_MODELS "gemini"⟩,
   ⟨"openai", env.OPENAI_API_KEY, DEFAULT_MODELS "openai"⟩,
   ⟨"anthropic", env.ANTHROPIC_API_KEY, DEFAULT_MODELS "anthropic"⟩,
   ⟨"openrouter", env.OPENROUTER_API_KEY, DEFAULT_MODELS "openrouter"⟩,
   ⟨"modelbox", env.MODELBOX_API_KEY, DEFAULT_MODELS "modelbox"⟩,
   ⟨"xai", env.XAI_API_KEY, DEFAULT_MODELS "xai"⟩,
   ⟨"apizh", isApizhAvailable, DEFAULT_MODELS "apizh"⟩,
   ⟨"apizh-coding", isApizhAvailable, DEFAULT_MODELS "apizh-coding"⟩,
   ⟨"apizh-chinese", isApizhAvailable, DEFAULT_MODELS "apizh-chinese"⟩,
   ⟨"apizh-analysis", isApizhAvailable, DEFAULT_MODELS "apizh-analysis"⟩,
   ⟨"apizh-creative", isApizhAvailable, DEFAULT_MODELS "apizh-creative"⟩,
   ⟨"apizh-math", isApizhAvailable, DEFAULT_MODELS "apizh-math"⟩,
   ⟨"apizh-web", isApizhAvailable, DEFAULT_MODELS "apizh-web"⟩,
   ⟨"apizh-reasoning", isApizhAvailable, DEFAULT_MODELS "apizh-reasoning"⟩,
   ⟨"apizh-cost", isApizhAvailable, DEFAULT_MODELS "apizh-cost"⟩,
   ⟨"apizh-nix", isApizhAvailable, DEFAULT_MODELS "apizh-nix"⟩]

/-- Embeds `getProviderInfo(provider)`:
`getAllProviders().find((p) => p.provider === provider)`. -/
def getProviderInfo (env : Env) (provider : String) : Option ProviderInfo :=
  (getAllProviders env).find? (fun p => p.provider == provider)

/-- Embeds `isProviderAvailable(provider)`:
`!!getProviderInfo(provider)?.available` — `false` both when the entry is
missing and when its `available` flag is false. -/
def isProviderAvailable (env : Env) (provider : String) : Bool :=
  match getProviderInfo env provider with
  | some providerInfo => providerInfo.available
  | none => false

/-- Embeds `getAvailableProviders()`:
`getAllProviders().filter((p) => p.available)`. -/
def getAvailableProviders (env : Env) : List ProviderInfo :=
  (getAllProviders env).filter (fun p => p.available)

/-- JavaScript `Array.prototype.indexOf`: the index of the first occurrence,
or `-1` when the element does not occur. -/
def jsIndexOf (xs : List String) (x : String) : Int :=
  if x ∈ xs then (xs.indexOf x : Int) else -1

/-- Embeds `getNextAvailableProvider(commandType, currentProvider?)`:
throws on an unregistered command type; otherwise scans the preference list
from `currentProvider ? indexOf(currentProvider) + 1 : 0`, returning the
first candidate whose registry entry is available, `undefined` (`none`)
when the scan exhausts the list. -/
def getNextAvailableProvider (env : Env) (commandType : String)
    (currentProvider : Option String) : Except String (Option String) :=
  match PROVIDER_PREFERENCE commandType with
  | none => Except.error ("Unknown command type: " ++ commandType)
  | some preferenceOrder =>
    let availableProviders := getAllProviders env
    let startIndex : Nat :=
      match currentProvider with
      | some p => (jsIndexOf preferenceOrder p + 1).toNat
      | none => 0
    Except.ok ((preferenceOrder.drop startIndex).find? (fun provider =>
      match availableProviders.find? (fun p => p.provider == provider) with
      | some providerInfo => providerInfo.available
      | none => false))

instance {ε α : Type} [DecidableEq ε] [DecidableEq α] : DecidableEq (Except ε α) :=
  fun a b =>
    match a, b with
    | Except.ok x, Except.ok y =>
      match decEq x y with
      | isTrue h => isTrue (by rw [h])
      | isFalse h => isFalse (fun hc => h (Except.ok.inj hc))
    | Except.error x, Except.error y =>
      match decEq x y with
      | isTrue h => isTrue (by rw [h])
      | isFalse h => isFalse (fun hc => h (Except.error.inj hc))
    | Except.ok _, Except.error _ => isFalse (fun hc => Except.noConfusion hc)
    | Except.error _, Except.ok _ => isFalse (fun hc => Except.noConfusion hc)

/-- The environment of the spec's "ask" scenario: exactly `OPENAI_API_KEY`
and `GEMINI_API_KEY` are set. -/
def envOpenaiGemini : Env :=
  ⟨false, true, true, false, false, false, false, false⟩

/-- The empty environment: no provider credential is set. -/
def envEmpty : Env :=
  ⟨false, false, false, false, false, false, false, false⟩

/-- The trace of one invocation of a streaming command (an async generator):
a finite sequence of yielded string chunks ended either by normal completion
(`done`) or by a thrown error (`fail`).  A JavaScript generator cannot yield
again after throwing, which the shape of this type reflects. -/
inductive Gen (ε : Type) : Type where
  | done : Gen ε
  | chunk : String → Gen ε → Gen ε
  | fail : ε → Gen ε
deriving DecidableEq

/-- What the caller of a generator observes when it drives it to its end:
the yielded chunks in delivery order, and the terminal error if the
generator threw instead of completing. -/
def observe {ε : Type} : Gen ε → List String × Option ε
  | Gen.done => ([], none)
  | Gen.chunk s g => ((observe g).1.cons s, (observe g).2)
  | Gen.fail e => ([], some e)

/-- JavaScript `String.prototype.trim`: strips leading and trailing
whitespace. -/
def jsTrim (s : String) : String :=
  String.mk (((s.data.dropWhile Char.isWhitespace).reverse.dropWhile
    Char.isWhitespace).reverse)

/-- Embeds the body of `NixCommand.execute` delegating to the assist
command: `try { yield* inner } catch (error) { console.error(...); throw
error; }` — every chunk of the inner generator is forwarded in order, and
an inner error is logged and rethrown unchanged. -/
def tryDelegateRethrow {ε : Type} : Gen ε → Gen ε
  | Gen.done => Gen.done
  | Gen.chunk s g => Gen.chunk s (tryDelegateRethrow g)
  | Gen.fail e => Gen.fail e

/-- The literal help text of `NixCommand.getHelpMessage` is irrelevant to
every property proved here; the constant stands for that string. -/
def nixHelpMessage : String :=
  "🔧 Vibe-Tools Nix 助手"

/-- Embeds `NixCommand.execute(query, options)`: an empty (after trim)
query yields the help message and returns; otherwise the assist command's
generator (`inner`, the producer) is driven via `yield*` inside a
rethrowing try/catch. -/
def nixCommandExecute {ε : Type} (query : String) (inner : Gen ε) : Gen ε :=
  if jsTrim query = "" then Gen.chunk nixHelpMessage Gen.done
  else tryDelegateRethrow inner

/-- JavaScript `a || b` for an optional string `a`: `b` when `a` is absent
or empty (falsy), `a` otherwise. -/
def jsOrDefault (a : Option String) (b : String) : String :=
  match a with
  | some s => if s = "" then b else s
  | none => b

/-- Embeds `options?.provider || (this.config as any).apizh?.provider ||
'apizh'` from `AskCommand.execute`. -/
def resolvedProviderName (optProvider configProvider : Option String) : String :=
  jsOrDefault optProvider (jsOrDefault configProvider "apizh")

/-- Embeds the chunk-relevant skeleton of `AskCommand.execute`.  The
external provider call (`provider.executePrompt`) is the parameter `call`:
its failure is wrapped in a `ProviderError` and thrown, its success value
is yielded as the single answer chunk.  Model selection, document fetching
and telemetry do not yield chunks and are omitted. -/
def askCommandExecute (env : Env) (optProvider configProvider : Option String)
    (call : Except String String) : Gen String :=
  let availableProviders := (getAllProviders env).filter (fun p => p.available)
  if availableProviders.isEmpty then
    Gen.fail "No AI providers are currently available. Please run 'vibe-tools install' to set up your API keys."
  else
    let providerName := resolvedProviderName optProvider configProvider
    match (getAllProviders env).find? (fun p => p.provider == providerName) with
    | none => Gen.fail ("Invalid provider: " ++ providerName ++ ".")
    | some providerInfo =>
      if providerInfo.available then
        match call with
        | Except.error e => Gen.fail e
        | Except.ok answer => Gen.chunk answer Gen.done
      else
        Gen.fail ("The " ++ providerName ++ " provider is not available.")

example : getNextAvailableProvider envOpenaiGemini "ask" none
    = Except.ok (some "openai") := by decide

example : getNextAvailableProvider envOpenaiGemini "ask" (some "openai")
    = Except.ok (some "gemini") := by decide

example : getNextAvailableProvider envOpenaiGemini "ask" (some "gemini")
    = Except.ok none := by decide

example : observe (nixCommandExecute "build"
    (Gen.chunk "He" (Gen.chunk "llo" (Gen.fail "E"))))
    = (["He", "llo"], some "E") := by decide

example : observe (askCommandExecute envOpenaiGemini (some "openai") none
    (Except.ok "answer")) = (["answer"], none) := by decide

example : observe (askCommandExecute envEmpty (some "openai") none
    (Except.ok "answer"))
    = ([], some "No AI providers are currently available. Please run 'vibe-tools install' to set up your API keys.") := by
  decide

/-! ## Helper lemmas about the fallback scan -/

/-- With a registered preference list and no current provider, the selector
is the scan of the whole list. -/
theorem getNext_none_eq (env : Env) (t : String) (order : List String)
    (h : PROVIDER_PREFERENCE t = some order) :
    getNextAvailableProvider env t none =
      Except.ok (order.find? (fun q => isProviderAvailable env q)) := by
  simp only [getNextAvailableProvider, h, List.drop_zero]
  rfl

/-- With a registered preference list and a current provider, the selector
is the scan of the list from the index after the current provider's first
occurrence (from index 0 when it does not occur). -/
theorem getNext_some_eq (env : Env) (t : String) (order : List String)
    (p : String) (h : PROVIDER_PREFERENCE t = some order) :
    getNextAvailableProvider env t (some p) =
      Except.ok ((order.drop ((jsIndexOf order p + 1).toNat)).find?
        (fun q => isProviderAvailable env q)) := by
  simp only [getNextAvailableProvider, h]
  rfl

/-- The element `find?` returns sits at the least index of any element
satisfying the predicate. -/
theorem find?_first_indexOf {l : List String} {f : String → Bool} {a : String}
    (h : l.find? f = some a) :
    ∀ b ∈ l, f b = true → l.indexOf a ≤ l.indexOf b := by
  induction l with
  | nil => simp at h
  | cons x xs ih =>
    by_cases hx : f x = true
    · rw [List.find?_cons_of_pos xs hx] at h
      cases h
      intro b hb hfb
      rw [List.indexOf_cons_self]
      exact Nat.zero_le _
    · rw [List.find?_cons_of_neg xs hx] at h
      intro b hb hfb
      have hxa : x ≠ a := by
        intro e
        exact hx (e ▸ List.find?_some h)
      have hxb : x ≠ b := by
        intro e
        exact hx (e ▸ hfb)
      rcases List.mem_cons.1 hb with hbx | hb2
      · exact absurd hbx.symm hxb
      · rw [List.indexOf_cons_ne xs hxa, List.indexOf_cons_ne xs hxb]
        exact Nat.succ_le_succ (ih h b hb2 hfb)

/-- In a duplicate-free list, every member of `l.drop n` has its (unique)
index at least `n`. -/
theorem nodup_indexOf_ge_of_mem_drop {l : List String} {n : Nat} {r : String}
    (hnd : l.Nodup) (hr : r ∈ l.drop n) : n ≤ l.indexOf r := by
  induction l generalizing n with
  | nil => rw [List.drop_nil] at hr; cases hr
  | cons x xs ih =>
    cases n with
    | zero => exact Nat.zero_le _
    | succ m =>
      have hr2 : r ∈ xs.drop m := hr
      have hrxs : r ∈ xs := List.drop_subset m xs hr2
      have hx : x ∉ xs := (List.nodup_cons.1 hnd).1
      have hxr : x ≠ r := by
        intro e
        exact hx (e ▸ hrxs)
      rw [List.indexOf_cons_ne xs hxr]
      exact Nat.succ_le_succ (ih (List.nodup_cons.1 hnd).2 hr2)

/-- Every registered preference list is duplicate-free. -/
theorem PROVIDER_PREFERENCE_nodup (t : String) (order : List String)
    (h : PROVIDER_PREFERENCE t = some order) : order.Nodup := by
  unfold PROVIDER_PREFERENCE at h
  split_ifs at h <;> (cases h; decide)

/-- The JavaScript index of an absent element is `-1`. -/
theorem jsIndexOf_of_not_mem {xs : List String} {x : String} (h : x ∉ xs) :
    jsIndexOf xs x = -1 := by
  simp [jsIndexOf, h]

/-- The JavaScript index of a present element is its `List.indexOf`. -/
theorem jsIndexOf_of_mem {xs : List String} {x : String} (h : x ∈ xs) :
    jsIndexOf xs x = (xs.indexOf x : Int) := by
  simp [jsIndexOf, h]

/-- For a present element the scan start index is `indexOf + 1`. -/
theorem jsIndexOf_toNat_succ {xs : List String} {x : String} (h : x ∈ xs) :
    (jsIndexOf xs x + 1).toNat = xs.indexOf x + 1 := by
  rw [jsIndexOf_of_mem h]
  omega

/-! ## Fallback selector claims -/

/-- C1: for every command type with a non-empty registered preference list
and every environment in which at least one listed provider is available,
`selectNext(t)` with `currentProvider` omitted returns an available listed
provider whose position in the list is at most the position of every other
available provider in the list. -/
theorem selectNext_most_preferred (env : Env) (t : String) (order : List String)
    (horder : PROVIDER_PREFERENCE t = some order)
    (havail : ∃ p ∈ order, isProviderAvailable env p = true) :
    ∃ p, getNextAvailableProvider env t none = Except.ok (some p) ∧
      p ∈ order ∧ isProviderAvailable env p = true ∧
      ∀ q ∈ order, isProviderAvailable env q = true →
        order.indexOf p ≤ order.indexOf q := by
  obtain ⟨p0, hp0mem, hp0av⟩ := havail
  cases hf : order.find? (fun q => isProviderAvailable env q) with
  | none =>
    have := List.find?_eq_none.1 hf p0 hp0mem
    simp [hp0av] at this
  | some p =>
    refine ⟨p, ?_, List.mem_of_find?_eq_some hf, List.find?_some hf, ?_⟩
    · rw [getNext_none_eq env t order horder, hf]
    · intro q hq hqav
      exact find?_first_indexOf hf q hq hqav

/-- C1 witness: in the environment with only `OPENAI_API_KEY` and
`GEMINI_API_KEY` set, the claim instantiated at command type `ask`. -/
theorem selectNext_most_preferred_witness :
    ∃ p, getNextAvailableProvider envOpenaiGemini "ask" none = Except.ok (some p) ∧
      p ∈ ["apizh-cost", "openai", "modelbox", "openrouter", "gemini",
           "anthropic", "perplexity", "apizh"] ∧
      isProviderAvailable envOpenaiGemini p = true ∧
      ∀ q ∈ ["apizh-cost", "openai", "modelbox", "openrouter", "gemini",
             "anthropic", "perplexity", "apizh"],
        isProviderAvailable envOpenaiGemini q = true →
        List.indexOf p ["apizh-cost", "openai", "modelbox", "openrouter",
          "gemini", "anthropic", "perplexity", "apizh"] ≤
        List.indexOf q ["apizh-cost", "openai", "modelbox", "openrouter",
          "gemini", "anthropic", "perplexity", "apizh"] :=
  selectNext_most_preferred envOpenaiGemini "ask" _ rfl (by decide)

/-- C2: when the current provider occurs in the preference list, the
selector only considers strictly later indices — it never returns the
current provider itself nor any provider at an index at most the current
provider's. -/
theorem selectNext_excludes_tried (env : Env) (t : String) (order : List String)
    (p r : String)
    (horder : PROVIDER_PREFERENCE t = some order)
    (hmem : p ∈ order)
    (hr : getNextAvailableProvider env t (some p) = Except.ok (some r)) :
    r ≠ p ∧ order.indexOf p < order.indexOf r := by
  rw [getNext_some_eq env t order p horder, jsIndexOf_toNat_succ hmem] at hr
  have hr2 : (order.drop (order.indexOf p + 1)).find?
      (fun q => isProviderAvailable env q) = some r := Except.ok.inj hr
  have hrdrop := List.mem_of_find?_eq_some hr2
  have hnd := PROVIDER_PREFERENCE_nodup t order horder
  have hge : order.indexOf p + 1 ≤ order.indexOf r :=
    nodup_indexOf_ge_of_mem_drop hnd hrdrop
  constructor
  · intro e
    rw [e] at hge
    omega
  · omega

/-- C2 witness: with only `OPENAI_API_KEY` and `GEMINI_API_KEY` set,
`selectNext('ask', 'openai')` returns `gemini`, which is distinct from and
strictly after `openai` in the list. -/
theorem selectNext_excludes_tried_witness :
    ("gemini" : String) ≠ "openai" ∧
      List.indexOf "openai" ["apizh-cost", "openai", "modelbox", "openrouter",
        "gemini", "anthropic", "perplexity", "apizh"] <
      List.indexOf "gemini" ["apizh-cost", "openai", "modelbox", "openrouter",
        "gemini", "anthropic", "perplexity", "apizh"] :=
  selectNext_excludes_tried envOpenaiGemini "ask" _ "openai" "gemini" rfl
    (by decide) (by decide)

/-- C3: when no provider of the registered preference list is available,
the selector returns `undefined` (not an error) for every value of the
optional current provider, including omitted. -/
theorem selectNext_exhausted (env : Env) (t : String) (order : List String)
    (horder : PROVIDER_PREFERENCE t = some order)
    (hnone : ∀ q ∈ order, isProviderAvailable env q = false)
    (cp : Option String) :
    getNextAvailableProvider env t cp = Except.ok none := by
  have hfind : ∀ k, (order.drop k).find? (fun q => isProviderAvailable env q)
      = none := by
    intro k
    apply List.find?_eq_none.2
    intro x hx
    simp [hnone x (List.drop_subset k order hx)]
  cases cp with
  | none =>
    have h0 := hfind 0
    rw [List.drop_zero] at h0
    rw [getNext_none_eq env t order horder, h0]
  | some p =>
    rw [getNext_some_eq env t order p horder, hfind _]

/-- C3 witness: in the empty environment, `selectNext('ask', 'openai')`
returns `undefined`. -/
theorem selectNext_exhausted_witness :
    getNextAvailableProvider envEmpty "ask" (some "openai") = Except.ok none :=
  selectNext_exhausted envEmpty "ask" _ rfl (by decide) (some "openai")

/-- C4: for every command type without a registered preference list the
selector throws a configuration error, regardless of the environment and of
the current provider argument. -/
theorem selectNext_unknown_commandType (env : Env) (t : String)
    (cp : Option String) (h : PROVIDER_PREFERENCE t = none) :
    getNextAvailableProvider env t cp =
      Except.error ("Unknown command type: " ++ t) := by
  simp only [getNextAvailableProvider, h]

/-- C4 witness: `selectNext('nonexistent')` raises the configuration
error. -/
theorem selectNext_unknown_commandType_witness :
    getNextAvailableProvider envOpenaiGemini "nonexistent" none =
      Except.error ("Unknown command type: " ++ "nonexistent") :=
  selectNext_unknown_commandType envOpenaiGemini "nonexistent" none rfl

/-- C7: a supplied current provider that does not occur in the preference
list behaves exactly as an omitted one: the scan starts at index 0 and the
same result is returned, in every environment. -/
theorem selectNext_current_absent (env : Env) (t : String) (order : List String)
    (p : String)
    (horder : PROVIDER_PREFERENCE t = some order)
    (hp : p ∉ order) :
    getNextAvailableProvider env t (some p) =
      getNextAvailableProvider env t none := by
  rw [getNext_some_eq env t order p horder, getNext_none_eq env t order horder,
    jsIndexOf_of_not_mem hp]
  norm_num

/-- C7 witness: `xai` does not occur in the `ask` preference list, and
`selectNext('ask', 'xai')` equals `selectNext('ask')`. -/
theorem selectNext_current_absent_witness :
    getNextAvailableProvider envOpenaiGemini "ask" (some "xai") =
      getNextAvailableProvider envOpenaiGemini "ask" none :=
  selectNext_current_absent envOpenaiGemini "ask" _ "xai" rfl (by decide)

/-! ## Registry claims -/

/-- C5 counterexample: the registered preference list for `ask` is not the
four-element list `[apizh-cost, openai, gemini, apizh]` the claim states —
the source also lists `modelbox`, `openrouter`, `anthropic` and
`perplexity`. -/
theorem ask_preference_short_list_refuted :
    PROVIDER_PREFERENCE "ask" ≠
      some ["apizh-cost", "openai", "gemini", "apizh"] := by
  decide

/-- C5 amended: the preference list for `ask` is the eight-element list
`[apizh-cost, openai, modelbox, openrouter, gemini, anthropic, perplexity,
apizh]`, and in the environment with exactly `OPENAI_API_KEY` and
`GEMINI_API_KEY` set, `selectNext('ask')` returns `openai`,
`selectNext('ask', 'openai')` returns `gemini` (skipping the unavailable
`modelbox` and `openrouter`), and `selectNext('ask', 'gemini')` returns
`undefined`. -/
theorem ask_scenario_amended :
    PROVIDER_PREFERENCE "ask" = some ["apizh-cost", "openai", "modelbox",
      "openrouter", "gemini", "anthropic", "perplexity", "apizh"] ∧
    getNextAvailableProvider envOpenaiGemini "ask" none
      = Except.ok (some "openai") ∧
    getNextAvailableProvider envOpenaiGemini "ask" (some "openai")
      = Except.ok (some "gemini") ∧
    getNextAvailableProvider envOpenaiGemini "ask" (some "gemini")
      = Except.ok none := by
  exact ⟨rfl, by decide, by decide, by decide⟩

/-- C6 counterexample: at the unknown identifier `nonexistent`,
`getDefaultModel` returns the absent value `undefined` (the JavaScript
record lookup misses) — it does not fail with a thrown
`UnknownProviderError` as the claim states; indeed no such error class
exists in the source. -/
theorem getDefaultModel_unknown_returns_absent :
    getDefaultModel "nonexistent" = none := by
  decide

/-- C6 amended: `getDefaultModel` is a pure lookup that is defined exactly
on the closed set of known provider identifiers; for an identifier outside
that set it returns the absent value `undefined` rather than throwing (the
closed set is enforced by the static `Provider` type, not by a runtime
error). -/
theorem getDefaultModel_lookup (p : String) :
    ((getDefaultModel p).isSome = true ↔ p ∈ knownProviderNames) ∧
    (p ∉ knownProviderNames → getDefaultModel p = none) := by
  have hnone : p ∉ knownProviderNames → getDefaultModel p = none := by
    intro h
    simp only [knownProviderNames, List.mem_cons, List.not_mem_nil, or_false,
      not_or] at h
    obtain ⟨h1, h2, h3, h4, h5, h6, h7, h8, h9, h10, h11, h12, h13, h14, h15,
      h16, h17⟩ := h
    unfold getDefaultModel DEFAULT_MODELS
    rw [if_neg h1, if_neg h2, if_neg h3, if_neg h4, if_neg h5, if_neg h6,
      if_neg h7, if_neg h8, if_neg h9, if_neg h10, if_neg h11, if_neg h12,
      if_neg h13, if_neg h14, if_neg h15, if_neg h16, if_neg h17]
  have hsome : p ∈ knownProviderNames → (getDefaultModel p).isSome = true := by
    intro h
    simp only [knownProviderNames, List.mem_cons, List.not_mem_nil,
      or_false] at h
    rcases h with rfl | rfl | rfl | rfl | rfl | rfl | rfl | rfl | rfl | rfl |
      rfl | rfl | rfl | rfl | rfl | rfl | rfl <;> decide
  refine ⟨⟨fun hiss => ?_, hsome⟩, hnone⟩
  by_contra h
  rw [hnone h] at hiss
  cases hiss

/-- C8: `isProviderAvailable` agrees with the `available` field of the
matching `getAllProviders` entry when one exists, is `false` (not an error)
when the identifier has no entry, and `getAvailableProviders` is exactly
`getAllProviders` filtered to the available entries. -/
theorem availability_agreement (env : Env) (id : String) :
    (∀ info, getProviderInfo env id = some info →
      isProviderAvailable env id = info.available) ∧
    (getProviderInfo env id = none → isProviderAvailable env id = false) ∧
    getAvailableProviders env
      = (getAllProviders env).filter (fun p => p.available) := by
  refine ⟨?_, ?_, rfl⟩
  · intro info hinfo
    unfold isProviderAvailable
    rw [hinfo]
  · intro hnone
    unfold isProviderAvailable
    rw [hnone]

/-! ## Streaming contract claims -/

/-- C9: for a non-empty query, `NixCommand.execute` delivers the chunks of
the delegated producer to the caller in exactly the order the producer
yields them, with no reordering or loss, and a producer error is delivered
as the terminal signal after the already-emitted chunks (the trace type
itself excludes chunks after the error). -/
theorem nixCommand_stream_order (query : String) (inner : Gen String)
    (h : ¬ jsTrim query = "") :
    observe (nixCommandExecute query inner) = observe inner := by
  unfold nixCommandExecute
  rw [if_neg h]
  induction inner with
  | done => rfl
  | chunk s g ih =>
    simp only [tryDelegateRethrow, observe, ih]
  | fail e => rfl

/-- C9 witness: a producer yielding `"He"` then `"llo"` then failing with
`"E"` is observed through `NixCommand.execute` as exactly the chunks
`"He"`, `"llo"` in order, terminated by the error `"E"`. -/
theorem nixCommand_stream_order_witness :
    observe (nixCommandExecute "build"
      (Gen.chunk "He" (Gen.chunk "llo" (Gen.fail "E"))))
      = (["He", "llo"], some "E") :=
  (nixCommand_stream_order "build"
    (Gen.chunk "He" (Gen.chunk "llo" (Gen.fail "E"))) (by decide)).trans rfl

/-- C10: `AskCommand.execute` throws a `ProviderError` before yielding any
chunk whenever no provider is available, the resolved provider name is
unrecognized, or the resolved provider is unavailable; and when the
provider call succeeds it yields exactly one chunk — the answer text — and
then completes. -/
theorem askCommand_chunk_discipline (env : Env)
    (optProvider configProvider : Option String)
    (call : Except String String) :
    (((getAllProviders env).filter (fun p => p.available)).isEmpty = true ∨
        getProviderInfo env (resolvedProviderName optProvider configProvider)
          = none ∨
        isProviderAvailable env
          (resolvedProviderName optProvider configProvider) = false →
      ∃ e, observe (askCommandExecute env optProvider configProvider call)
        = ([], some e)) ∧
    (∀ answer,
      isProviderAvailable env (resolvedProviderName optProvider configProvider)
        = true →
      call = Except.ok answer →
      observe (askCommandExecute env optProvider configProvider call)
        = ([answer], none)) := by
  constructor
  · intro hdisj
    simp only [askCommandExecute]
    split
    · exact ⟨_, rfl⟩
    · rename_i hemp
      split
      · exact ⟨_, rfl⟩
      · rename_i info hfind
        split
        · rename_i havinfo
          exfalso
          rcases hdisj with hd | hd | hd
          · exact hemp hd
          · rw [getProviderInfo, hfind] at hd
            cases hd
          · unfold isProviderAvailable getProviderInfo at hd
            simp only [hfind] at hd
            rw [hd] at havinfo
            cases havinfo
        · exact ⟨_, rfl⟩
  · intro answer hav hcall
    unfold isProviderAvailable getProviderInfo at hav
    cases hfind : (getAllProviders env).find? (fun p =>
        p.provider == resolvedProviderName optProvider configProvider) with
    | none =>
      simp only [hfind] at hav
      cases hav
    | some info =>
      simp only [hfind] at hav
      have hmem := List.mem_of_find?_eq_some hfind
      have hmemF : info ∈ (getAllProviders env).filter (fun p => p.available) :=
        List.mem_filter.2 ⟨hmem, hav⟩
      have hemp :
          ¬ ((getAllProviders env).filter (fun p => p.available)).isEmpty
            = true := by
        intro he
        rw [List.isEmpty_iff.1 he] at hmemF
        cases hmemF
      simp only [askCommandExecute, hfind, hcall]
      rw [if_neg hemp, if_pos hav]
      rfl
